import Mathlib

/-!
A shallow embedding of `server/main.py` of the chatgpt-retrieval-plugin
service: the FastAPI request handlers (`upsert_file`, `upsert`,
`query_main`, `chat`, `query` on the sub-application, `delete`), bearer
token validation (`validate_token`), and the startup hook that binds the
global datastore handle. The datastore and the external services the
handlers call (pydantic parsing, file extraction, chat completion) are
external collaborators, modelled as records of abstract functions; a raised
Python exception is modelled as an `Except.error` carrying its message
string, and a raised `HTTPException` as an `Except.error` carrying status
and detail. Each handler also returns the trace of calls it issued to the
external collaborators, so that claims of the form "the backend is never
reached" are provable.
-/

/-- Modelled from the spec: the `Source` enumeration of
`models.models` (email | file | chat | other), absent from src. -/
inductive Source where
  | email
  | file
  | chat
  | other
deriving DecidableEq, Repr

/-- Modelled from the spec: `DocumentMetadata` of `models.models`, absent
from src — structured fields, all optional. `main.py` constructs
`DocumentMetadata(source=Source.file)`, leaving the other fields at their
defaults. -/
structure DocumentMetadata where
  source : Option Source := none
  source_id : Option String := none
  url : Option String := none
  created_at : Option String := none
  author : Option String := none
deriving DecidableEq, Repr

/-- Modelled from the spec: `DocumentMetadataFilter` of `models.models`,
absent from src — a conjunction of optional constraints. `main.py` only
passes it through to the datastore. -/
structure DocumentMetadataFilter where
  document_id : Option String := none
  source : Option Source := none
  source_id : Option String := none
  author : Option String := none
  start_date : Option String := none
  end_date : Option String := none
deriving DecidableEq, Repr

/-- Modelled from the spec: `Document` of `models.models`, absent from
src. `main.py` only passes documents through to the datastore. -/
structure Document where
  id : Option String := none
  text : String
  metadata : Option DocumentMetadata := none
deriving DecidableEq, Repr

/-- Modelled from the spec: `Query` of `models.models`, absent from src.
`main.py` constructs `Query(query=requests.content, filter=None, top_k=3)`
in the chat handler. -/
structure Query where
  query : String
  filter : Option DocumentMetadataFilter := none
  top_k : Nat := 3
deriving DecidableEq, Repr

/-- Modelled from the spec: a scored chunk of a `QueryResult`
(`DocumentChunkWithScore`); the chat handler reads only its `text`. -/
structure DocumentChunkWithScore where
  text : String
deriving DecidableEq, Repr

/-- Modelled from the spec: `QueryResult` of `models.models` — the input
query together with its ordered matches. -/
structure QueryResult where
  query : String
  results : List DocumentChunkWithScore
deriving DecidableEq, Repr

/-- Request body of the `/upsert` route (`UpsertRequest` of
`models.api`, absent from src: a list of documents). -/
structure UpsertRequest where
  documents : List Document
deriving DecidableEq, Repr

/-- Response of the `/upsert` and `/upsert-file` routes. -/
structure UpsertResponse where
  ids : List String
deriving DecidableEq, Repr

/-- Request body of the `/query` routes. -/
structure QueryRequest where
  queries : List Query
deriving DecidableEq, Repr

/-- Response of the `/query` routes. -/
structure QueryResponse where
  results : List QueryResult
deriving DecidableEq, Repr

/-- Request body of the `/delete` route: every field optional. -/
structure DeleteRequest where
  ids : Option (List String) := none
  filter : Option DocumentMetadataFilter := none
  delete_all : Option Bool := none
deriving DecidableEq, Repr

/-- Response of the `/delete` route. -/
structure DeleteResponse where
  success : Bool
deriving DecidableEq, Repr

/-- Request body of the `/chat` route: `requests.content` is a string. -/
structure ChatRequest where
  content : String
deriving DecidableEq, Repr

/-- A role-tagged message sent to the completion provider. -/
structure ChatMessage where
  role : String
  content : String
deriving DecidableEq, Repr

/-- A Python exception escaping a collaborator call, reduced to its
message: the handlers catch every `Exception` alike and never inspect it
beyond printing. -/
abbrev PyException := String

/-- `fastapi.HTTPException`: what a handler raises to produce an error
response. -/
structure HTTPException where
  status_code : Nat
  detail : String
deriving DecidableEq, Repr

/-- An opaque file handle (`fastapi.UploadFile`); `main.py` only forwards
it to `get_document_from_file`. -/
structure UploadFile where
  filename : String
deriving DecidableEq, Repr

/-- The datastore handle bound by the startup hook: the three async
methods `main.py` invokes on it, each able to raise. -/
structure Datastore where
  upsert : List Document → Except PyException (List String)
  query : List Query → Except PyException (List QueryResult)
  delete : Option (List String) → Option DocumentMetadataFilter → Option Bool →
      Except PyException Bool

/-- One call issued by a handler to an external collaborator, recorded in
the trace a handler returns alongside its result. -/
inductive ExtCall where
  | upsertCall (documents : List Document)
  | queryCall (queries : List Query)
  | deleteCall (ids : Option (List String)) (filter : Option DocumentMetadataFilter)
      (delete_all : Option Bool)
  | completionCall (messages : List ChatMessage)
deriving DecidableEq, Repr

/-- Whether an `ExtCall` is a datastore query. -/
def ExtCall.isQueryCall : ExtCall → Bool
  | .queryCall _ => true
  | _ => false

/-- Python truthiness of `request.ids : Optional[List[str]]`: `None` and
`[]` are falsy. -/
def pyTruthyIds : Option (List String) → Bool
  | none => false
  | some l => !l.isEmpty

/-- Python truthiness of `request.filter : Optional[DocumentMetadataFilter]`:
`None` is falsy, a model instance is truthy. -/
def pyTruthyFilter : Option DocumentMetadataFilter → Bool
  | none => false
  | some _ => true

/-- Python truthiness of `request.delete_all : Optional[bool]`: only
`True` is truthy. -/
def pyTruthyDeleteAll : Option Bool → Bool
  | none => false
  | some b => b

/-- Python truthiness of `metadata : Optional[str]`: `None` and the empty
string are falsy. -/
def pyTruthyStr : Option String → Bool
  | none => false
  | some s => !(s == "")

/-- The error response of a failed datastore call in `upsert`,
`query_main`, `query` (sub-app), `chat` and `delete`:
`HTTPException(status_code=500, detail="Internal Service Error")`. -/
def internalServiceError : HTTPException :=
  { status_code := 500, detail := "Internal Service Error" }

/-- The handler `delete` of the `/delete` route (`main.py` lines
199-216): reject with a 400 when none of `ids`, `filter`, `delete_all` is
truthy, otherwise forward the three fields to `datastore.delete`, wrapping
success in a `DeleteResponse` and any exception in a 500. -/
def delete (datastore : Datastore) (request : DeleteRequest) :
    Except HTTPException DeleteResponse × List ExtCall :=
  if !(pyTruthyIds request.ids || pyTruthyFilter request.filter ||
      pyTruthyDeleteAll request.delete_all) then
    (.error { status_code := 400, detail := "One of ids, filter, or delete_all is required" },
     [])
  else
    match datastore.delete request.ids request.filter request.delete_all with
    | .ok success =>
        (.ok { success := success },
         [.deleteCall request.ids request.filter request.delete_all])
    | .error _ =>
        (.error internalServiceError,
         [.deleteCall request.ids request.filter request.delete_all])

/-- The handler `upsert` of the `/upsert` route (`main.py` lines 93-101):
forward `request.documents` to `datastore.upsert`, wrapping the returned
ids in an `UpsertResponse` and any exception in a 500. -/
def upsert (datastore : Datastore) (request : UpsertRequest) :
    Except HTTPException UpsertResponse × List ExtCall :=
  match datastore.upsert request.documents with
  | .ok ids => (.ok { ids := ids }, [.upsertCall request.documents])
  | .error _ => (.error internalServiceError, [.upsertCall request.documents])

/-- The handler `query_main` of the main application's `/query` route
(`main.py` lines 108-119): forward `request.queries` to
`datastore.query`, wrapping the results in a `QueryResponse` and any
exception in a 500. -/
def query_main (datastore : Datastore) (request : QueryRequest) :
    Except HTTPException QueryResponse × List ExtCall :=
  match datastore.query request.queries with
  | .ok results => (.ok { results := results }, [.queryCall request.queries])
  | .error _ => (.error internalServiceError, [.queryCall request.queries])

/-- The handler `query` of the sub-application's `/query` route
(`main.py` lines 182-192): same body as `query_main` (the two differ only
in `query_main` additionally printing a traceback, which has no effect on
the response). -/
def query (datastore : Datastore) (request : QueryRequest) :
    Except HTTPException QueryResponse × List ExtCall :=
  match datastore.query request.queries with
  | .ok results => (.ok { results := results }, [.queryCall request.queries])
  | .error _ => (.error internalServiceError, [.queryCall request.queries])

/-- The external collaborators of the `/upsert-file` route:
`DocumentMetadata.parse_raw` (pydantic parsing of the raw metadata form
field, which may raise) and `services.file.get_document_from_file`. -/
structure FileEnv where
  parse_raw : String → Except PyException DocumentMetadata
  get_document_from_file : UploadFile → DocumentMetadata → Document

/-- The `metadata_obj` computed by `upsert_file` (`main.py` lines 70-77):
parse the form field when it is truthy, falling back to
`DocumentMetadata(source=Source.file)` when the field is absent or empty
or the parse raises. -/
def metadata_obj_of (env : FileEnv) (metadata : Option String) : DocumentMetadata :=
  if pyTruthyStr metadata then
    match env.parse_raw (metadata.getD "") with
    | .ok m => m
    | .error _ => { source := some Source.file }
  else { source := some Source.file }

/-- The handler `upsert_file` of the `/upsert-file` route (`main.py`
lines 66-86): build `metadata_obj`, extract a document from the uploaded
file, and upsert it; an exception from the upsert is wrapped in a 500
whose detail is the literal result of the f-string `f"str({e})"`. -/
def upsert_file (env : FileEnv) (datastore : Datastore) (file : UploadFile)
    (metadata : Option String) : Except HTTPException UpsertResponse × List ExtCall :=
  let metadata_obj := metadata_obj_of env metadata
  let document := env.get_document_from_file file metadata_obj
  match datastore.upsert [document] with
  | .ok ids => (.ok { ids := ids }, [.upsertCall [document]])
  | .error e =>
      (.error { status_code := 500, detail := "str(" ++ e ++ ")" },
       [.upsertCall [document]])

/-- `fastapi.security.HTTPAuthorizationCredentials`: the parsed
`Authorization` header, a scheme and a credential string. -/
structure HTTPAuthorizationCredentials where
  scheme : String
  credentials : String
deriving DecidableEq, Repr

/-- The 401 response `validate_token` raises. -/
def invalidTokenError : HTTPException :=
  { status_code := 401, detail := "Invalid or missing token" }

/-- The dependency `validate_token` (`main.py` lines 40-45): reject with a
401 unless the scheme is `Bearer` and the credential equals the configured
`BEARER_TOKEN`. -/
def validate_token (BEARER_TOKEN : String)
    (credentials : HTTPAuthorizationCredentials) :
    Except HTTPException HTTPAuthorizationCredentials :=
  if credentials.scheme ≠ "Bearer" ∨ credentials.credentials ≠ BEARER_TOKEN then
    .error invalidTokenError
  else
    .ok credentials

/-- FastAPI dependency sequencing: both applications are declared with
`dependencies=[Depends(validate_token)]`, so the handler result is
produced only after `validate_token` succeeds; a raised 401 short-circuits
the request. -/
def withAuth (BEARER_TOKEN : String) (credentials : HTTPAuthorizationCredentials)
    (handler : Except HTTPException α) : Except HTTPException α :=
  match validate_token BEARER_TOKEN credentials with
  | .error e => .error e
  | .ok _ => handler

/-- The system prompt built by the chat handler (`main.py` lines
141-149): the f-string with `context` interpolated between the `=========`
fences. -/
def promptOf (context : String) : String :=
  "\n             You are an AI assistant providing helpful advice. You are given the following extracted parts of a long document and a question. Provide a conversational answer based on the context provided.\nIf you can\x27t find the answer in the context below, just say \"Hmm, I\x27m not sure.\" Don\x27t try to make up an answer.\nYou will reply to me in the same language as the language used in user\x27s question\nIf the question is not related to the context, politely respond that you are tuned to only answer questions that are related to the context.\n        =========\n        "
    ++ context ++ "\n        =========\n              "

/-- The message list the chat handler sends to the completion provider
(`main.py` lines 139-153): chunk texts of the first query result joined
and re-fenced into `context`, interpolated into the system prompt,
followed by the user's content. -/
def chatMessages (requests : ChatRequest) (r0 : QueryResult) : List ChatMessage :=
  let context := "\n".intercalate (r0.results.map (fun r => r.text))
  let context := context.replace "\n" " ----------------------------- "
  [{ role := "system", content := promptOf context },
   { role := "user", content := requests.content }]

/-- The handler `chat` of the `/chat` route (`main.py` lines 122-162):
reject empty content with a 400; otherwise query the datastore with a
single `Query(query=requests.content, filter=None, top_k=3)`, build the
grounding prompt from the first result's chunk texts, and request a chat
completion. Any exception inside the `try` — a datastore failure, the
`IndexError` from `results[0]` on an empty result list, or a completion
failure — is caught and wrapped in a 500. -/
def chat (datastore : Datastore)
    (get_chat_completion : List ChatMessage → Except PyException String)
    (requests : ChatRequest) : Except HTTPException String × List ExtCall :=
  if requests.content = "" then
    (.error { status_code := 400, detail := "One of content is required" }, [])
  else
    let q : Query := { query := requests.content, filter := none, top_k := 3 }
    let queries := [q]
    match datastore.query queries with
    | .error _ => (.error internalServiceError, [.queryCall queries])
    | .ok results =>
      match results with
      | [] => (.error internalServiceError, [.queryCall queries])
      | r0 :: _ =>
        let messages := chatMessages requests r0
        match get_chat_completion messages with
        | .ok completion =>
            (.ok completion, [.queryCall queries, .completionCall messages])
        | .error _ =>
            (.error internalServiceError, [.queryCall queries, .completionCall messages])

/-- The collaborators of the whole application other than the datastore:
the `/upsert-file` helpers, the completion provider, and
`pinecone.list_indexes` used by `/list-index`. -/
structure AppEnv where
  fileEnv : FileEnv
  get_chat_completion : List ChatMessage → Except PyException String
  list_indexes : Except PyException (List String)

/-- One inbound request, one constructor per route of `main.py`. -/
inductive RequestEvent where
  | upsertFileReq (file : UploadFile) (metadata : Option String)
  | upsertReq (request : UpsertRequest)
  | queryMainReq (request : QueryRequest)
  | chatReq (requests : ChatRequest)
  | listIndexReq
  | subQueryReq (request : QueryRequest)
  | deleteReq (request : DeleteRequest)

/-- A response from any of the routes. -/
inductive RouteResponse where
  | upsertResp (r : Except HTTPException UpsertResponse)
  | queryResp (r : Except HTTPException QueryResponse)
  | chatResp (r : Except HTTPException String)
  | listIndexResp (r : Except HTTPException (List String))
  | deleteResp (r : Except HTTPException DeleteResponse)

/-- The mutable process state of `server.main`: the single module-level
global `datastore`, unbound (`none`) until the startup hook runs. -/
structure AppState where
  datastore : Option Datastore

/-- Reading the global `datastore` before the startup hook has bound it
raises a `NameError` at the point of use; since every use sits inside a
handler's `try`, this behaves as a datastore whose every method raises. -/
def unboundDatastore : Datastore where
  upsert := fun _ => .error "NameError: name \x27datastore\x27 is not defined"
  query := fun _ => .error "NameError: name \x27datastore\x27 is not defined"
  delete := fun _ _ _ => .error "NameError: name \x27datastore\x27 is not defined"

/-- The datastore a handler sees in a given process state. -/
def boundDatastore (s : AppState) : Datastore :=
  match s.datastore with
  | some ds => ds
  | none => unboundDatastore

/-- The handler `list_index` of the `/list-index` route (`main.py` lines
165-173): forward `pinecone.list_indexes()`, wrapping any exception in a
500. It does not touch the datastore. -/
def list_index (env : AppEnv) : Except HTTPException (List String) :=
  match env.list_indexes with
  | .ok indexes => .ok indexes
  | .error _ => .error internalServiceError

/-- Dispatching one request in a process state: each branch invokes the
corresponding handler on the currently bound datastore and returns the
state unchanged — no handler body of `main.py` assigns the global. -/
def appStep (env : AppEnv) (s : AppState) : RequestEvent → RouteResponse × AppState
  | .upsertFileReq file metadata =>
      (.upsertResp (upsert_file env.fileEnv (boundDatastore s) file metadata).1, s)
  | .upsertReq request => (.upsertResp (upsert (boundDatastore s) request).1, s)
  | .queryMainReq request => (.queryResp (query_main (boundDatastore s) request).1, s)
  | .chatReq requests =>
      (.chatResp (chat (boundDatastore s) env.get_chat_completion requests).1, s)
  | .listIndexReq => (.listIndexResp (list_index env), s)
  | .subQueryReq request => (.queryResp (query (boundDatastore s) request).1, s)
  | .deleteReq request => (.deleteResp (delete (boundDatastore s) request).1, s)

/-- The startup hook (`main.py` lines 219-222): bind the module-level
global `datastore` to the backend produced by `get_datastore()`,
overwriting whatever was there. -/
def startup (get_datastore : Datastore) (_s : AppState) : AppState :=
  { datastore := some get_datastore }

/-- Running a sequence of requests from a process state: fold `appStep`
over the events, keeping the final state. -/
def runRequests (env : AppEnv) (s : AppState) (events : List RequestEvent) : AppState :=
  events.foldl (fun s e => (appStep env s e).2) s

/-! ## Concrete collaborators used by the witnesses -/

/-- A datastore whose every method succeeds, echoing its inputs. -/
def dsOk : Datastore where
  upsert := fun documents => .ok (documents.map (fun d => d.id.getD ""))
  query := fun queries => .ok (queries.map (fun q => { query := q.query, results := [] }))
  delete := fun _ _ _ => .ok true

/-- A datastore whose every method raises. -/
def dsFail : Datastore where
  upsert := fun _ => .error "boom"
  query := fun _ => .error "boom"
  delete := fun _ _ _ => .error "boom"

/-- A datastore returning one chunk per query, for exercising `chat`. -/
def dsOne : Datastore where
  upsert := fun documents => .ok (documents.map (fun d => d.id.getD ""))
  query := fun queries =>
    .ok (queries.map (fun q => { query := q.query, results := [{ text := "ctx" }] }))
  delete := fun _ _ _ => .ok true

/-- A completion provider that always answers. -/
def gccOk : List ChatMessage → Except PyException String := fun _ => .ok "done"

/-- File-route collaborators whose metadata parse always raises. -/
def fileEnvBadParse : FileEnv where
  parse_raw := fun _ => .error "pydantic ValidationError"
  get_document_from_file := fun file m =>
    { id := some file.filename, text := "body", metadata := some m }

/-- A rejected credential: wrong scheme, matching token. -/
def credBasic : HTTPAuthorizationCredentials :=
  { scheme := "Basic", credentials := "secret" }

/-! ## Helper lemmas -/

/-- When the scheme or the credential is wrong, the dependency rejects
the request with the 401 before the handler result is produced. -/
theorem withAuth_of_invalid (BEARER_TOKEN : String)
    (credentials : HTTPAuthorizationCredentials) (handler : Except HTTPException α)
    (h : credentials.scheme ≠ "Bearer" ∨ credentials.credentials ≠ BEARER_TOKEN) :
    withAuth BEARER_TOKEN credentials handler = .error invalidTokenError := by
  unfold withAuth validate_token
  rw [if_pos h]

/-- When the scheme and the credential are right, the dependency passes
and the request is the handler result. -/
theorem withAuth_of_valid (BEARER_TOKEN : String)
    (credentials : HTTPAuthorizationCredentials) (handler : Except HTTPException α)
    (h : ¬(credentials.scheme ≠ "Bearer" ∨ credentials.credentials ≠ BEARER_TOKEN)) :
    withAuth BEARER_TOKEN credentials handler = handler := by
  unfold withAuth validate_token
  rw [if_neg h]

/-- No route handler modifies the process state: `appStep` returns the
state it was given. -/
theorem appStep_state_eq (env : AppEnv) (s : AppState) (e : RequestEvent) :
    (appStep env s e).2 = s := by
  cases e <;> rfl

/-- Running any request sequence leaves the process state unchanged. -/
theorem runRequests_eq (env : AppEnv) (events : List RequestEvent) :
    ∀ s : AppState, runRequests env s events = s := by
  induction events with
  | nil => intro s; rfl
  | cons e es ih =>
      intro s
      show runRequests env (appStep env s e).2 es = s
      rw [appStep_state_eq]
      exact ih s

/-! ## Claims -/

/-- C1: a delete request in which none of `ids`, `filter`, `delete_all`
is set (ids absent or empty, filter absent, delete_all absent or false)
fails with the invalid-request rejection — the 400 `HTTPException` that
realizes `InvalidRequestError` at this layer. -/
theorem delete_no_mode_rejected (datastore : Datastore) (request : DeleteRequest)
    (hids : request.ids = none ∨ request.ids = some [])
    (hfilter : request.filter = none)
    (hall : request.delete_all = none ∨ request.delete_all = some false) :
    (delete datastore request).1 =
      .error { status_code := 400, detail := "One of ids, filter, or delete_all is required" } := by
  rcases hids with h1 | h1 <;> rcases hall with h2 | h2 <;>
    simp [delete, h1, h2, hfilter, pyTruthyIds, pyTruthyFilter, pyTruthyDeleteAll]

/-- C1 witness: `delete(ids=[], filter=None, delete_all=None)` is
rejected with the 400. -/
theorem delete_no_mode_rejected_witness :
    (delete dsOk { ids := some [], filter := none, delete_all := none }).1 =
      .error { status_code := 400, detail := "One of ids, filter, or delete_all is required" } :=
  delete_no_mode_rejected dsOk { ids := some [], filter := none, delete_all := none }
    (Or.inr rfl) rfl (Or.inl rfl)

/-- C2: a delete request rejected for having no deletion mode set never
reaches the backend: the handler issues no external call, and its result
is independent of the datastore, so the datastore is unchanged. -/
theorem delete_no_mode_backend_untouched (datastore datastore' : Datastore)
    (request : DeleteRequest)
    (hids : request.ids = none ∨ request.ids = some [])
    (hfilter : request.filter = none)
    (hall : request.delete_all = none ∨ request.delete_all = some false) :
    (delete datastore request).2 = [] ∧
      delete datastore request = delete datastore' request := by
  rcases hids with h1 | h1 <;> rcases hall with h2 | h2 <;>
    simp [delete, h1, h2, hfilter, pyTruthyIds, pyTruthyFilter, pyTruthyDeleteAll]

/-- C2 witness: the no-mode delete against a failing datastore issues no
call and coincides with the same request against a healthy one. -/
theorem delete_no_mode_backend_untouched_witness :
    (delete dsFail { ids := none, filter := none, delete_all := some false }).2 = [] ∧
      delete dsFail { ids := none, filter := none, delete_all := some false } =
        delete dsOk { ids := none, filter := none, delete_all := some false } :=
  delete_no_mode_backend_untouched dsFail dsOk
    { ids := none, filter := none, delete_all := some false }
    (Or.inl rfl) rfl (Or.inr rfl)

/-- C3: when the datastore upsert returns a list of ids, the `/upsert`
handler returns exactly that list, unchanged and in order, and its single
backend call carries the request documents unchanged. -/
theorem upsert_returns_datastore_ids (datastore : Datastore) (request : UpsertRequest)
    (ids : List String) (h : datastore.upsert request.documents = .ok ids) :
    upsert datastore request = (.ok { ids := ids }, [.upsertCall request.documents]) := by
  simp [upsert, h]

/-- C3 witness: upserting two documents returns their ids in input
order. -/
theorem upsert_returns_datastore_ids_witness :
    upsert dsOk { documents := [{ id := some "1", text := "a" }, { id := some "2", text := "b" }] } =
      (.ok { ids := ["1", "2"] },
       [.upsertCall [{ id := some "1", text := "a" }, { id := some "2", text := "b" }]]) :=
  upsert_returns_datastore_ids dsOk
    { documents := [{ id := some "1", text := "a" }, { id := some "2", text := "b" }] }
    ["1", "2"] rfl

/-- C4: when the datastore query returns a list of results, the `/query`
handler of the main application wraps exactly that list, unchanged, and
its single backend call carries the request queries unchanged. -/
theorem query_main_returns_datastore_results (datastore : Datastore)
    (request : QueryRequest) (results : List QueryResult)
    (h : datastore.query request.queries = .ok results) :
    query_main datastore request = (.ok { results := results }, [.queryCall request.queries]) := by
  simp [query_main, h]

/-- C4 witness: querying with two queries returns one result per query in
input order. -/
theorem query_main_returns_datastore_results_witness :
    query_main dsOk { queries := [{ query := "a" }, { query := "b" }] } =
      (.ok { results := [{ query := "a", results := [] }, { query := "b", results := [] }] },
       [.queryCall [{ query := "a" }, { query := "b" }]]) :=
  query_main_returns_datastore_results dsOk { queries := [{ query := "a" }, { query := "b" }] }
    [{ query := "a", results := [] }, { query := "b", results := [] }] rfl

/-- C5: when the metadata form field is absent or its parse raises, the
`/upsert-file` handler falls back to `DocumentMetadata(source=Source.file)`
and behaves exactly as a call with no metadata field: the upsert proceeds
and the parse error is never surfaced. -/
theorem upsert_file_metadata_fallback (env : FileEnv) (datastore : Datastore)
    (file : UploadFile) (metadata : Option String)
    (h : metadata = none ∨ ∃ s e, metadata = some s ∧ env.parse_raw s = .error e) :
    metadata_obj_of env metadata = { source := some Source.file } ∧
      upsert_file env datastore file metadata = upsert_file env datastore file none := by
  have hm : metadata_obj_of env metadata = { source := some Source.file } := by
    rcases h with h | ⟨s, e, hs, he⟩
    · simp [metadata_obj_of, h, pyTruthyStr]
    · subst hs
      by_cases hempty : s = ""
      · simp [metadata_obj_of, hempty, pyTruthyStr]
      · simp [metadata_obj_of, pyTruthyStr, beq_iff_eq, hempty, he]
  have hnone : metadata_obj_of env none = { source := some Source.file } := by
    simp [metadata_obj_of, pyTruthyStr]
  refine ⟨hm, ?_⟩
  unfold upsert_file
  rw [hm, hnone]

/-- C5 witness: with a metadata field whose parse raises, the handler
falls back to the file-source default and the upsert still succeeds. -/
theorem upsert_file_metadata_fallback_witness :
    metadata_obj_of fileEnvBadParse (some "not json") = { source := some Source.file } ∧
      upsert_file fileEnvBadParse dsOk { filename := "f.txt" } (some "not json") =
        upsert_file fileEnvBadParse dsOk { filename := "f.txt" } none :=
  upsert_file_metadata_fallback fileEnvBadParse dsOk { filename := "f.txt" } (some "not json")
    (Or.inr ⟨"not json", "pydantic ValidationError", rfl, rfl⟩)

/-- C6: any exception the datastore raises during the `/upsert`,
`/query` or `/delete` handler (the latter once a deletion mode is set, so
the backend is reached) is mapped to the generic
`HTTPException(500, "Internal Service Error")`, regardless of the
exception's content. -/
theorem datastore_exception_maps_to_500 (datastore : Datastore) (ureq : UpsertRequest)
    (qreq : QueryRequest) (dreq : DeleteRequest) (e₁ e₂ e₃ : PyException) :
    (datastore.upsert ureq.documents = .error e₁ →
      (upsert datastore ureq).1 = .error internalServiceError) ∧
    (datastore.query qreq.queries = .error e₂ →
      (query_main datastore qreq).1 = .error internalServiceError) ∧
    ((pyTruthyIds dreq.ids || pyTruthyFilter dreq.filter ||
        pyTruthyDeleteAll dreq.delete_all) = true →
      datastore.delete dreq.ids dreq.filter dreq.delete_all = .error e₃ →
      (delete datastore dreq).1 = .error internalServiceError) := by
  refine ⟨fun h => ?_, fun h => ?_, fun hmode h => ?_⟩
  · simp [upsert, h]
  · simp [query_main, h]
  · simp [delete, hmode, h]

/-- C6 witness: a failing datastore turns each of the three operations
into the generic 500. -/
theorem datastore_exception_maps_to_500_witness :
    (upsert dsFail { documents := [] }).1 = .error internalServiceError ∧
    (query_main dsFail { queries := [] }).1 = .error internalServiceError ∧
    (delete dsFail { ids := none, filter := none, delete_all := some true }).1 =
      .error internalServiceError :=
  ⟨(datastore_exception_maps_to_500 dsFail { documents := [] } { queries := [] }
      { ids := none, filter := none, delete_all := some true } "boom" "boom" "boom").1 rfl,
   (datastore_exception_maps_to_500 dsFail { documents := [] } { queries := [] }
      { ids := none, filter := none, delete_all := some true } "boom" "boom" "boom").2.1 rfl,
   (datastore_exception_maps_to_500 dsFail { documents := [] } { queries := [] }
      { ids := none, filter := none, delete_all := some true } "boom" "boom" "boom").2.2 rfl rfl⟩

/-- C7: a request whose handler does not itself produce the 401 is
rejected with `HTTPException(401, "Invalid or missing token")` exactly
when the scheme is not `Bearer` or the credential differs from the
configured token; with a valid credential, validation passes and the
handler result is returned. -/
theorem validate_token_gate (BEARER_TOKEN : String)
    (credentials : HTTPAuthorizationCredentials) (handler : Except HTTPException α)
    (hno401 : handler ≠ .error invalidTokenError) :
    (withAuth BEARER_TOKEN credentials handler = .error invalidTokenError ↔
      (credentials.scheme ≠ "Bearer" ∨ credentials.credentials ≠ BEARER_TOKEN)) ∧
    (credentials.scheme = "Bearer" ∧ credentials.credentials = BEARER_TOKEN →
      withAuth BEARER_TOKEN credentials handler = handler) := by
  by_cases h : credentials.scheme ≠ "Bearer" ∨ credentials.credentials ≠ BEARER_TOKEN
  · refine ⟨iff_of_true (withAuth_of_invalid _ _ _ h) h, fun hpos => ?_⟩
    rcases h with h | h
    · exact absurd hpos.1 h
    · exact absurd hpos.2 h
  · rw [withAuth_of_valid _ _ _ h]
    exact ⟨iff_of_false hno401 h, fun _ => rfl⟩

/-- C7 witness: a `Basic`-scheme credential carrying the right token is
still rejected with the 401, per the iff. -/
theorem validate_token_gate_witness :
    (withAuth "secret" credBasic (Except.ok (0 : Nat)) = .error invalidTokenError ↔
      (credBasic.scheme ≠ "Bearer" ∨ credBasic.credentials ≠ "secret")) ∧
    (credBasic.scheme = "Bearer" ∧ credBasic.credentials = "secret" →
      withAuth "secret" credBasic (Except.ok (0 : Nat)) = Except.ok 0) :=
  validate_token_gate "secret" credBasic (Except.ok 0) (fun h => Except.noConfusion h)

/-- C8: the datastore handle is bound exactly once, by the startup hook;
after a startup from any prior state, running any sequence of requests
leaves the handle equal to the one `get_datastore()` produced, and every
prefix of the run serves its requests with that same instance. -/
theorem datastore_bound_once (env : AppEnv) (get_datastore : Datastore)
    (s : AppState) (events : List RequestEvent) :
    (runRequests env (startup get_datastore s) events).datastore = some get_datastore ∧
    ∀ n : Nat,
      boundDatastore (runRequests env (startup get_datastore s) (events.take n)) =
        get_datastore := by
  constructor
  · rw [runRequests_eq]
    rfl
  · intro n
    rw [runRequests_eq]
    rfl

/-- C9: the main application's `/query` handler and the
sub-application's `/query` handler are behaviorally equivalent: same
datastore call, same response, same error mapping. -/
theorem query_main_eq_sub_query (datastore : Datastore) (request : QueryRequest) :
    query_main datastore request = query datastore request := rfl

/-- C10: a chat request with empty content fails with the 400 and no
external call; one with non-empty content issues exactly one datastore
query — `Query(query=content, filter=None, top_k=3)` — as its first
external call, and every later call (the completion, if reached) is not a
datastore query. -/
theorem chat_query_discipline (datastore : Datastore)
    (get_chat_completion : List ChatMessage → Except PyException String)
    (requests : ChatRequest) :
    (requests.content = "" →
      chat datastore get_chat_completion requests =
        (.error { status_code := 400, detail := "One of content is required" }, [])) ∧
    (requests.content ≠ "" →
      ∃ rest, (chat datastore get_chat_completion requests).2 =
          .queryCall [{ query := requests.content, filter := none, top_k := 3 }] :: rest ∧
        ∀ c ∈ rest, c.isQueryCall = false) := by
  constructor
  · intro h
    simp [chat, h]
  · intro h
    rcases hq : datastore.query [{ query := requests.content, filter := none, top_k := 3 }]
      with e | results
    · exact ⟨[], by simp [chat, h, hq], by simp⟩
    · cases results with
      | nil => exact ⟨[], by simp [chat, h, hq], by simp⟩
      | cons r0 rs =>
          refine ⟨[.completionCall (chatMessages requests r0)], ?_,
            by simp [ExtCall.isQueryCall]⟩
          rcases hc : get_chat_completion (chatMessages requests r0) with e | completion <;>
            simp [chat, h, hq, hc]

/-- C10 witness: the empty-content request is rejected with no calls;
the request with content `"hi"` opens with exactly the expected datastore
query. -/
theorem chat_query_discipline_witness :
    chat dsOne gccOk { content := "" } =
      (.error { status_code := 400, detail := "One of content is required" }, []) ∧
    ∃ rest, (chat dsOne gccOk { content := "hi" }).2 =
        .queryCall [{ query := "hi", filter := none, top_k := 3 }] :: rest ∧
      ∀ c ∈ rest, c.isQueryCall = false :=
  ⟨(chat_query_discipline dsOne gccOk { content := "" }).1 rfl,
   (chat_query_discipline dsOne gccOk { content := "hi" }).2 (by decide)⟩
